import Mathlib

/-!
Shallow embedding of `src/src/lib.rs` (smoltcp bindings for the ENC28J60
Ethernet controller) and verification of its specification claims.

Modelling choices:
* The two `RefCell`s of `InnerEnc28j60` (`device`, `buffer`) are modelled by
  two borrow flags in `InnerState`; `try_borrow_mut` succeeds exactly when the
  corresponding flag is `false`, and a successful `lock` sets both flags
  (the returned `SharedBuffer` holds both `RefMut`s).  Dropping the
  `SharedBuffer` clears both flags (`InnerState.release`).
* The frame buffer `[u8; BUFFER_SIZE]` is a `List Nat` of bytes.
* The external enc28j60 driver (spec section 6 interface boundary) is an
  oracle: `DriverRx` either fills the buffer's prefix with one frame's bytes
  and returns the byte count, or fails; `DriverTx` either accepts the handed
  bytes or fails.  Error payloads are a `Nat` so that "every driver error"
  is quantifiable.
* Mutation through `&mut [u8]` is explicit: callbacks take the buffer's bytes
  and return the (possibly rewritten) bytes together with their result.
* Every externally visible interaction (driver receive call, driver transmit
  call, callback invocation) is recorded in an event trace, so "the callback
  is never invoked" and "the controller is never touched" are statable.
-/

namespace Enc28j60Smoltcp

/-- Modelled from the crate doc of the external enc28j60 driver: the largest
Ethernet frame the controller handles, 1518 bytes (the module doc of
`lib.rs` states the buffer size as `1518 - 4`). -/
def MAX_FRAME_LENGTH : Nat := 1518

/-- Modelled from the crate doc of the external enc28j60 driver: size of the
trailing CRC of an Ethernet frame, 4 bytes. -/
def CRC_SZ : Nat := 4

/-- Maximum message size (`lib.rs` line 30): `MAX_FRAME_LENGTH - CRC_SZ`. -/
def BUFFER_SIZE : Nat := MAX_FRAME_LENGTH - CRC_SZ

/-- The smoltcp error kind surfaced by this adapter (variants of
`smoltcp::Error` that can appear here, plus further variants a callback may
return). -/
inductive SmolError where
  | Exhausted
  | Illegal
  | Unaddressable
  | Malformed
  | Dropped
deriving DecidableEq

/-- `smoltcp::Result<R>`. -/
abbrev SmolResult (R : Type) := Except SmolError R

/-- The crate's own error type (`lib.rs` lines 251-254): a single variant. -/
inductive Error where
  | Illegal
deriving DecidableEq

/-- `impl From<Error> for smoltcp::Error` (`lib.rs` lines 261-265): every
crate error becomes `smoltcp::Error::Illegal`. -/
def Error.toSmol : Error → SmolError
  | Error.Illegal => SmolError.Illegal

/-- Behaviour of the external driver's blocking `receive` for one call:
either it delivers one frame (whose bytes it writes into the front of the
handed buffer, returning the byte count) or it fails with some driver error
`e`. -/
inductive DriverRx where
  | ok : List Nat → DriverRx
  | err : Nat → DriverRx
deriving DecidableEq

/-- `Enc28j60::receive(buffer: &mut [u8]) -> Result<u16, E>`: fills the
buffer with one frame's bytes and returns the byte count.  The mutated
buffer contents are returned explicitly. -/
def driverReceive : DriverRx → List Nat → Except Nat (Nat × List Nat)
  | DriverRx.ok frame, buf => Except.ok (frame.length, frame ++ buf.drop frame.length)
  | DriverRx.err e, _ => Except.error e

/-- Behaviour of the external driver's blocking `transmit` for one call:
success, or failure with some driver error `e`. -/
inductive DriverTx where
  | ok : DriverTx
  | err : Nat → DriverTx
deriving DecidableEq

/-- `Enc28j60::transmit(buffer: &[u8]) -> Result<(), E>`: sends exactly the
given bytes as one frame. -/
def driverTransmit : DriverTx → List Nat → Except Nat Unit
  | DriverTx.ok, _ => Except.ok ()
  | DriverTx.err e, _ => Except.error e

/-- State of `InnerEnc28j60`: the borrow flags of the two `RefCell`s
(`device`, `buffer`) and the contents of the shared frame buffer. -/
structure InnerState where
  deviceBorrowed : Bool
  bufferBorrowed : Bool
  buffer : List Nat
deriving DecidableEq

/-- Taking both `RefMut`s: the `SharedBuffer` existing marks both cells
borrowed. -/
def InnerState.claim (s : InnerState) : InnerState :=
  { s with deviceBorrowed := true, bufferBorrowed := true }

/-- Dropping the `SharedBuffer`: both `RefMut`s are dropped, clearing both
borrow flags. -/
def InnerState.release (s : InnerState) : InnerState :=
  { s with deviceBorrowed := false, bufferBorrowed := false }

/-- Externally visible interactions of one token consumption. -/
inductive Event where
  | driverReceiveCall : List Nat → Event
  | driverTransmitCall : List Nat → Event
  | callbackCall : List Nat → Event
deriving DecidableEq

/-- `InnerEnc28j60::new` (`lib.rs` lines 113-118): fresh unborrowed cells and
a zero-initialised buffer `[0; BUFFER_SIZE]`. -/
def InnerEnc28j60.new : InnerState :=
  { deviceBorrowed := false, bufferBorrowed := false
    buffer := List.replicate BUFFER_SIZE 0 }

/-- `InnerEnc28j60::lock` (`lib.rs` lines 120-131): `try_borrow_mut` on the
device cell, then on the buffer cell; only when both succeed is a
`SharedBuffer` (the claimed state) returned, else `None` (a `RefMut` taken
for a cell whose partner is busy is dropped again inside `lock`, so the
flags are unchanged on failure). -/
def InnerEnc28j60.lock (s : InnerState) : Option InnerState :=
  if s.deviceBorrowed = false then
    if s.bufferBorrowed = false then some (InnerState.claim s) else none
  else none

/-- `InnerEnc28j60::send` (`lib.rs` lines 133-138): hand the whole buffer to
the driver's `transmit`; any driver error becomes `Error::Illegal`. -/
def InnerEnc28j60.send (drv : DriverTx) (buf : List Nat) : Except Error Unit :=
  match driverTransmit drv buf with
  | Except.ok _ => Except.ok ()
  | Except.error _ => Except.error Error.Illegal

/-- `InnerEnc28j60::receive` (`lib.rs` lines 140-146): let the driver receive
into the whole buffer; the returned byte count is discarded (`.map(|_| ())`)
and any driver error becomes `Error::Illegal`.  The mutated buffer is
returned explicitly. -/
def InnerEnc28j60.receive (drv : DriverRx) (buf : List Nat) : Except Error (List Nat) :=
  match driverReceive drv buf with
  | Except.ok r => Except.ok r.2
  | Except.error _ => Except.error Error.Illegal

/-- `RxToken::consume` (`lib.rs` lines 193-205).  Returns the smoltcp result,
the device state after the call, and the trace of external interactions.
The processing callback `f` receives the buffer bytes through `&mut [u8]`
and yields the rewritten bytes and its result. -/
def RxToken.consume (R : Type) (s : InnerState) (drv : DriverRx)
    (f : List Nat → List Nat × SmolResult R) :
    SmolResult R × InnerState × List Event :=
  match InnerEnc28j60.lock s with
  | none => (Except.error SmolError.Exhausted, s, [])
  | some locked =>
    match InnerEnc28j60.receive drv locked.buffer with
    | Except.error e =>
        (Except.error (Error.toSmol e), InnerState.release locked,
         [Event.driverReceiveCall locked.buffer])
    | Except.ok newBuf =>
        let r := f newBuf
        (r.2, InnerState.release { locked with buffer := r.1 },
         [Event.driverReceiveCall locked.buffer, Event.callbackCall newBuf])

/-- `TxToken::consume` (`lib.rs` lines 226-248).  Returns the smoltcp result,
the device state after the call, and the trace of external interactions.
The filling callback `f` receives the buffer bytes through `&mut [u8]` and
yields the rewritten bytes and its result; the send happens regardless of
the callback's result, and a send failure short-circuits via `?`. -/
def TxToken.consume (R : Type) (s : InnerState) (drv : DriverTx) (len : Nat)
    (f : List Nat → List Nat × SmolResult R) :
    SmolResult R × InnerState × List Event :=
  if len > BUFFER_SIZE then
    (Except.error SmolError.Exhausted, s, [])
  else
    match InnerEnc28j60.lock s with
    | none => (Except.error SmolError.Exhausted, s, [])
    | some locked =>
      let r := f locked.buffer
      match InnerEnc28j60.send drv r.1 with
      | Except.error e =>
          (Except.error (Error.toSmol e),
           InnerState.release { locked with buffer := r.1 },
           [Event.callbackCall locked.buffer, Event.driverTransmitCall r.1])
      | Except.ok _ =>
          (r.2, InnerState.release { locked with buffer := r.1 },
           [Event.callbackCall locked.buffer, Event.driverTransmitCall r.1])

/-- The bytes handed to the driver's `transmit` in a trace, if any. -/
def sentFrame : List Event → Option (List Nat)
  | [] => none
  | Event.driverTransmitCall b :: _ => some b
  | _ :: rest => sentFrame rest

/-- `smoltcp::phy::Medium` (the variants relevant here). -/
inductive Medium where
  | Ethernet
  | Ip
deriving DecidableEq

/-- The fields of `smoltcp::phy::DeviceCapabilities` this adapter touches. -/
structure DeviceCapabilities where
  medium : Medium
  max_transmission_unit : Nat
  max_burst_size : Option Nat
deriving DecidableEq

/-- `DeviceCapabilities::default()`. -/
def DeviceCapabilities.default : DeviceCapabilities :=
  { medium := Medium.Ethernet, max_transmission_unit := 0, max_burst_size := none }

/-- `SmolEnc28j60::capabilities` (`lib.rs` lines 86-92): default capabilities
with medium Ethernet, MTU `BUFFER_SIZE`, burst size 1.  Takes `&self`, so it
is a pure function of the state and returns no updated state. -/
def SmolEnc28j60.capabilities (_s : InnerState) : DeviceCapabilities :=
  { DeviceCapabilities.default with
      medium := Medium.Ethernet
      max_transmission_unit := BUFFER_SIZE
      max_burst_size := some 1 }

/-- A receive token: only a non-owning reference back to the adapter. -/
structure RxTokenRef where
  lowerRef : Unit

/-- A transmit token: only a non-owning reference back to the adapter. -/
structure TxTokenRef where
  lowerRef : Unit

/-- `SmolEnc28j60::receive` (`lib.rs` lines 69-78): unconditionally `Some` of
a token pair; the state is untouched (tokens only reference it). -/
def SmolEnc28j60.receive (s : InnerState) :
    Option (RxTokenRef × TxTokenRef) × InnerState :=
  (some ({ lowerRef := () }, { lowerRef := () }), s)

/-- `SmolEnc28j60::transmit` (`lib.rs` lines 80-84): unconditionally `Some`
of a transmit token; the state is untouched. -/
def SmolEnc28j60.transmit (s : InnerState) : Option TxTokenRef × InnerState :=
  (some { lowerRef := () }, s)

/-! ## Helper lemmas about the claim lifecycle -/

/-- A free state (neither cell borrowed) is successfully locked, yielding the
claimed state. -/
theorem lock_of_free (s : InnerState) (hd : s.deviceBorrowed = false)
    (hb : s.bufferBorrowed = false) :
    InnerEnc28j60.lock s = some (InnerState.claim s) := by
  simp [InnerEnc28j60.lock, hd, hb]

/-- A state in which either cell is borrowed cannot be locked. -/
theorem lock_of_busy (s : InnerState)
    (h : s.deviceBorrowed = true ∨ s.bufferBorrowed = true) :
    InnerEnc28j60.lock s = none := by
  rcases h with h | h
  · simp [InnerEnc28j60.lock, h]
  · cases hd : s.deviceBorrowed <;> simp [InnerEnc28j60.lock, h, hd]

/-- Locking always succeeds immediately after a release. -/
theorem lock_release_isSome (s : InnerState) :
    (InnerEnc28j60.lock (InnerState.release s)).isSome = true := by
  simp [InnerEnc28j60.lock, InnerState.release, InnerState.claim]

/-- Taking the claim does not change the buffer contents. -/
theorem claim_buffer (s : InnerState) : (InnerState.claim s).buffer = s.buffer := rfl

/-! ## Claim theorems -/

/-- Claim C3: mutual exclusion.  At most one exclusive claim on the
controller handle and frame buffer is active at any instant: a successful
lock marks both cells borrowed (last conjunct), and in any state where a
claim is active (either cell borrowed) a further lock fails, and any receive
or transmit consume attempted there — for example by a callback re-entering
the adapter — fails with `Exhausted`, leaves the state (buffer included)
unchanged, and produces no external interaction: its callback is never
invoked and neither the buffer nor the controller is touched. -/
theorem claim_mutual_exclusion (R : Type) (s : InnerState)
    (drvR : DriverRx) (drvT : DriverTx) (len : Nat)
    (f g : List Nat → List Nat × SmolResult R)
    (h : s.deviceBorrowed = true ∨ s.bufferBorrowed = true) :
    InnerEnc28j60.lock s = none ∧
    RxToken.consume R s drvR f = (Except.error SmolError.Exhausted, s, []) ∧
    TxToken.consume R s drvT len g = (Except.error SmolError.Exhausted, s, []) ∧
    ∀ s₀ c, InnerEnc28j60.lock s₀ = some c →
      c.deviceBorrowed = true ∧ c.bufferBorrowed = true := by
  have hl := lock_of_busy s h
  refine ⟨hl, ?_, ?_, ?_⟩
  · simp [RxToken.consume, hl]
  · by_cases hlen : len > BUFFER_SIZE <;> simp [TxToken.consume, hlen, hl]
  · intro s₀ c hc
    by_cases h1 : s₀.deviceBorrowed = false
    · by_cases h2 : s₀.bufferBorrowed = false
      · simp [InnerEnc28j60.lock, h1, h2] at hc
        subst hc
        exact ⟨rfl, rfl⟩
      · simp [InnerEnc28j60.lock, h1, h2] at hc
    · simp [InnerEnc28j60.lock, h1] at hc

/-- Witness for C3 at a concrete claimed state. -/
theorem claim_mutual_exclusion_witness :
    RxToken.consume Nat
      { deviceBorrowed := true, bufferBorrowed := true, buffer := [] }
      (DriverRx.err 0) (fun b => (b, Except.ok 0)) =
      (Except.error SmolError.Exhausted,
       { deviceBorrowed := true, bufferBorrowed := true, buffer := [] }, []) :=
  (claim_mutual_exclusion Nat
      { deviceBorrowed := true, bufferBorrowed := true, buffer := [] }
      (DriverRx.err 0) DriverTx.ok 0 (fun b => (b, Except.ok 0))
      (fun b => (b, Except.ok 0)) (Or.inl rfl)).2.1

/-- Claim C4: release on exit.  After any receive or transmit consume from a
free state returns — for every driver outcome and every callback, hence for
success, `Illegal` and callback-error outcomes alike — the claim has been
released: a lock attempt on the resulting state succeeds, so there is no
permanent lockout. -/
theorem release_on_exit (R : Type) (s : InnerState) (drvR : DriverRx)
    (drvT : DriverTx) (len : Nat) (f g : List Nat → List Nat × SmolResult R)
    (hd : s.deviceBorrowed = false) (hb : s.bufferBorrowed = false) :
    (InnerEnc28j60.lock (RxToken.consume R s drvR f).2.1).isSome = true ∧
    (InnerEnc28j60.lock (TxToken.consume R s drvT len g).2.1).isSome = true := by
  have hl := lock_of_free s hd hb
  constructor
  · cases drvR with
    | ok frame =>
        simp [RxToken.consume, hl, InnerEnc28j60.receive, driverReceive,
              lock_release_isSome]
    | err e =>
        simp [RxToken.consume, hl, InnerEnc28j60.receive, driverReceive,
              lock_release_isSome]
  · by_cases hlen : len > BUFFER_SIZE
    · simp [TxToken.consume, hlen, hl]
    · cases drvT <;>
        simp [TxToken.consume, hlen, hl, InnerEnc28j60.send, driverTransmit,
              lock_release_isSome]

/-- Witness for C4 on the freshly constructed device. -/
theorem release_on_exit_witness :
    (InnerEnc28j60.lock
      (RxToken.consume Nat InnerEnc28j60.new (DriverRx.ok [])
        (fun b => (b, Except.ok 0))).2.1).isSome = true :=
  (release_on_exit Nat InnerEnc28j60.new (DriverRx.ok []) DriverTx.ok 0
      (fun b => (b, Except.ok 0)) (fun b => (b, Except.ok 0)) rfl rfl).1

/-- Claim C5: a claimed transmit always flushes, and hardware failure takes
precedence.  For every filling callback `f` — including one returning an
error — and every driver outcome, the driver's transmit is invoked with the
buffer as rewritten by the callback; and when the hardware transmit fails
(for any driver error `e`), the overall result is `Illegal`, superseding the
callback's own result. -/
theorem tx_always_flushes (R : Type) (s : InnerState) (len : Nat) (e : Nat)
    (f : List Nat → List Nat × SmolResult R)
    (hd : s.deviceBorrowed = false) (hb : s.bufferBorrowed = false)
    (hlen : len ≤ BUFFER_SIZE) :
    (∀ drvT : DriverTx,
      Event.driverTransmitCall (f s.buffer).1 ∈
        (TxToken.consume R s drvT len f).2.2) ∧
    (TxToken.consume R s (DriverTx.err e) len f).1 =
      Except.error SmolError.Illegal := by
  have hl := lock_of_free s hd hb
  have hlen' : ¬ len > BUFFER_SIZE := Nat.not_lt.mpr hlen
  constructor
  · intro drvT
    cases drvT <;>
      simp [TxToken.consume, hlen', hl, InnerEnc28j60.send, driverTransmit,
            InnerState.claim]
  · simp [TxToken.consume, hlen', hl, InnerEnc28j60.send, driverTransmit,
          Error.toSmol]

/-- Witness for C5: with an error-returning filling callback, a failing
driver yields `Illegal`. -/
theorem tx_always_flushes_witness :
    (TxToken.consume Nat InnerEnc28j60.new (DriverTx.err 7) 0
      (fun b => (b, Except.error SmolError.Malformed))).1 =
      Except.error SmolError.Illegal :=
  (tx_always_flushes Nat InnerEnc28j60.new 0 7
      (fun b => (b, Except.error SmolError.Malformed)) rfl rfl
      (Nat.zero_le BUFFER_SIZE)).2

/-- Claim C6: capacity precondition.  The buffer capacity is 1514 bytes, and
a transmit consume whose requested length exceeds it fails immediately with
`Exhausted`: the state is unchanged (no claim taken) and the trace is empty
(the filling callback is never invoked and the controller is never
called). -/
theorem tx_capacity_precondition (R : Type) (s : InnerState) (drvT : DriverTx)
    (len : Nat) (f : List Nat → List Nat × SmolResult R)
    (h : len > BUFFER_SIZE) :
    BUFFER_SIZE = 1514 ∧
    TxToken.consume R s drvT len f = (Except.error SmolError.Exhausted, s, []) :=
  ⟨rfl, by simp [TxToken.consume, h]⟩

/-- Witness for C6 at the requested length 1515 on the fresh device. -/
theorem tx_capacity_precondition_witness :
    TxToken.consume Nat InnerEnc28j60.new DriverTx.ok 1515
      (fun b => (b, Except.ok 0)) =
      (Except.error SmolError.Exhausted, InnerEnc28j60.new, []) :=
  (tx_capacity_precondition Nat InnerEnc28j60.new DriverTx.ok 1515
      (fun b => (b, Except.ok 0)) (by decide)).2

/-- Claim C7: receive hardware failure.  For every driver error `e`, a
receive consume from a free state returns `Illegal`, its trace holds only
the driver receive call (so the processing callback is never invoked), and
both borrow flags of the resulting state are clear: the claim is released.
The last conjunct records that the crate's error conversion maps every
driver-level error uniformly to `Illegal`. -/
theorem rx_driver_error_illegal (R : Type) (s : InnerState) (e : Nat)
    (f : List Nat → List Nat × SmolResult R)
    (hd : s.deviceBorrowed = false) (hb : s.bufferBorrowed = false) :
    (RxToken.consume R s (DriverRx.err e) f).1 = Except.error SmolError.Illegal ∧
    (RxToken.consume R s (DriverRx.err e) f).2.2 =
      [Event.driverReceiveCall s.buffer] ∧
    (RxToken.consume R s (DriverRx.err e) f).2.1.deviceBorrowed = false ∧
    (RxToken.consume R s (DriverRx.err e) f).2.1.bufferBorrowed = false ∧
    (∀ er : Error, Error.toSmol er = SmolError.Illegal) := by
  have hl := lock_of_free s hd hb
  refine ⟨?_, ?_, ?_, ?_, ?_⟩ <;>
    simp [RxToken.consume, hl, InnerEnc28j60.receive, driverReceive,
          Error.toSmol, InnerState.release, InnerState.claim]

/-- Witness for C7 at a concrete driver error on the fresh device. -/
theorem rx_driver_error_illegal_witness :
    (RxToken.consume Nat InnerEnc28j60.new (DriverRx.err 3)
      (fun b => (b, Except.ok 0))).1 = Except.error SmolError.Illegal :=
  (rx_driver_error_illegal Nat InnerEnc28j60.new 3
      (fun b => (b, Except.ok 0)) rfl rfl).1

/-- Claim C8: capability reporting.  In every device state the capabilities
query reports medium Ethernet, maximum transmission unit 1514 (the buffer
capacity `MAX_FRAME_LENGTH - CRC_SZ`) and maximum burst size 1; it is a
pure function of the state (it returns no updated state in the embedding,
mirroring `&self`), and any two queries — in particular repeated queries
with no intervening operations — return identical results. -/
theorem capabilities_report (s₁ s₂ : InnerState) :
    SmolEnc28j60.capabilities s₁ =
      { medium := Medium.Ethernet, max_transmission_unit := 1514,
        max_burst_size := some 1 } ∧
    SmolEnc28j60.capabilities s₁ =
      { medium := Medium.Ethernet,
        max_transmission_unit := MAX_FRAME_LENGTH - CRC_SZ,
        max_burst_size := some 1 } ∧
    SmolEnc28j60.capabilities s₁ = SmolEnc28j60.capabilities s₂ :=
  ⟨rfl, rfl, rfl⟩

/-- Claim C9: token creation never fails and dropped tokens are harmless.
In every device state the receive entry point returns `some` token pair and
the transmit entry point returns `some` token, each leaving the state
exactly as it was (no hardware operation, no events); hence a token dropped
unconsumed changes nothing, and from a free state a subsequent claim attempt
still succeeds. -/
theorem tokens_never_fail (s : InnerState) :
    (SmolEnc28j60.receive s).1.isSome = true ∧
    (SmolEnc28j60.receive s).2 = s ∧
    (SmolEnc28j60.transmit s).1.isSome = true ∧
    (SmolEnc28j60.transmit s).2 = s ∧
    (s.deviceBorrowed = false → s.bufferBorrowed = false →
      (InnerEnc28j60.lock (SmolEnc28j60.receive s).2).isSome = true ∧
      (InnerEnc28j60.lock (SmolEnc28j60.transmit s).2).isSome = true) := by
  refine ⟨rfl, rfl, rfl, rfl, ?_⟩
  intro hd hb
  constructor <;>
    simp [SmolEnc28j60.receive, SmolEnc28j60.transmit, lock_of_free s hd hb]

/-- Witness for C9 on the freshly constructed device. -/
theorem tokens_never_fail_witness :
    (InnerEnc28j60.lock (SmolEnc28j60.receive InnerEnc28j60.new).2).isSome = true :=
  ((tokens_never_fail InnerEnc28j60.new).2.2.2.2 rfl rfl).1

/-- An index below the length of a replicated list reads back the replicated
element. -/
theorem replicate_get? (n i a : Nat) (h : i < n) :
    (List.replicate n a).get? i = some a := by
  induction n generalizing i with
  | zero => omega
  | succ n ih =>
    cases i with
    | zero => rfl
    | succ i => exact ih i (Nat.lt_of_succ_lt_succ h)

/-- Claim C10: the constructor zero-initialises the shared frame buffer, and
in the first transmit after construction every buffer position the filling
callback leaves unchanged is handed to the driver as the byte 0. -/
theorem buffer_zero_initialized :
    InnerEnc28j60.new.buffer = List.replicate BUFFER_SIZE 0 ∧
    ∀ (R : Type) (drvT : DriverTx) (len : Nat)
      (f : List Nat → List Nat × SmolResult R) (i : Nat),
      len ≤ BUFFER_SIZE →
      (f (List.replicate BUFFER_SIZE 0)).1.get? i =
        (List.replicate BUFFER_SIZE 0).get? i →
      i < BUFFER_SIZE →
      ((sentFrame (TxToken.consume R InnerEnc28j60.new drvT len f).2.2).bind
        (fun frame => frame.get? i)) = some 0 := by
  refine ⟨rfl, ?_⟩
  intro R drvT len f i hlen hf hi
  have hlen' : ¬ len > BUFFER_SIZE := Nat.not_lt.mpr hlen
  have hl := lock_of_free InnerEnc28j60.new rfl rfl
  have hget := replicate_get? BUFFER_SIZE i 0 hi
  rw [List.get?_eq_getElem?] at hget
  rw [List.get?_eq_getElem?, List.get?_eq_getElem?] at hf
  cases drvT <;>
    simp [TxToken.consume, hlen', hl, InnerEnc28j60.send, driverTransmit,
          sentFrame, InnerState.claim, InnerEnc28j60.new, Option.bind] <;>
    rw [hf, hget]

/-- Witness for C10: a filling callback that writes nothing transmits a zero
byte at position 0. -/
theorem buffer_zero_initialized_witness :
    ((sentFrame (TxToken.consume Nat InnerEnc28j60.new DriverTx.ok 0
        (fun b => (b, Except.ok 0))).2.2).bind
      (fun frame => frame.get? 0)) = some 0 :=
  buffer_zero_initialized.2 Nat DriverTx.ok 0 (fun b => (b, Except.ok 0)) 0
    (Nat.zero_le BUFFER_SIZE) rfl (by decide)

set_option maxRecDepth 40000 in
/-- Claim C1 (code-bug evidence): when the driver fills N = 3 bytes
([1, 2, 3]) on the freshly constructed device, the processing callback is
handed the full 1514-byte buffer rather than a slice of length 3 — a
callback that returns the length of the slice it observes yields 1514, and
this value is propagated as the operation's result.  The byte count reported
by the driver is discarded by `InnerEnc28j60::receive` (`.map(|_| ())`). -/
theorem rx_callback_sees_full_buffer :
    (RxToken.consume Nat InnerEnc28j60.new (DriverRx.ok [1, 2, 3])
        (fun b => (b, Except.ok b.length))).1 = Except.ok 1514 ∧
    (1514 : Nat) ≠ 3 :=
  ⟨rfl, by decide⟩

set_option maxRecDepth 40000 in
/-- Claim C2 (code-bug evidence): a transmit consume requesting len = 60
bytes on the freshly constructed device hands the filling callback the full
1514-byte buffer (a length-observing callback yields 1514), and the driver's
transmit receives all 1514 buffer bytes rather than the 60 requested. -/
theorem tx_driver_gets_full_buffer :
    (TxToken.consume Nat InnerEnc28j60.new DriverTx.ok 60
        (fun b => (b, Except.ok b.length))).1 = Except.ok 1514 ∧
    (sentFrame (TxToken.consume Nat InnerEnc28j60.new DriverTx.ok 60
        (fun b => (b, Except.ok b.length))).2.2).map List.length = some 1514 ∧
    (1514 : Nat) ≠ 60 :=
  ⟨rfl, rfl, by decide⟩

end Enc28j60Smoltcp
